import Mathlib

/-
  Verification of the sidecar lifecycle and deep-link dispatch subsystem of
  the pluto-duck desktop shell (src/tauri-shell/src-tauri/src/lib.rs).

  Strings are modelled as List Char.  Machine-facing effects (process kill,
  window show, script evaluation, TCP connect attempts) are modelled as
  explicit event traces; outcomes of OS calls are inputs of the model.
-/

/- ------------------------------------------------------------------
   JSON string encoding, as performed by serde_json::to_string on a
   Rust String (lib.rs line 150).  serde_json escapes the double quote,
   the backslash, and control characters below 0x20 (named escapes for
   0x08, 0x09, 0x0A, 0x0C, 0x0D, and \u00xy with lowercase hex digits
   for the rest); every other character is emitted verbatim.
   ------------------------------------------------------------------ -/

def hexDigitChar (n : Nat) : Char :=
  if n < 10 then Char.ofNat (48 + n) else Char.ofNat (87 + n)

def escapeChar (c : Char) : List Char :=
  if c = '"' then ['\\', '"']
  else if c = '\\' then ['\\', '\\']
  else if c.toNat < 32 then
    if c.toNat = 8 then ['\\', 'b']
    else if c.toNat = 9 then ['\\', 't']
    else if c.toNat = 10 then ['\\', 'n']
    else if c.toNat = 12 then ['\\', 'f']
    else if c.toNat = 13 then ['\\', 'r']
    else ['\\', 'u', '0', '0', hexDigitChar (c.toNat / 16), hexDigitChar (c.toNat % 16)]
  else [c]

def escapeBody : List Char → List Char
  | [] => []
  | c :: cs => escapeChar c ++ escapeBody cs

/-- The full JSON string literal produced by serde_json for a string value:
an opening quote, the escaped body, a closing quote. -/
def jsonEncodeString (s : List Char) : List Char :=
  '"' :: (escapeBody s ++ ['"'])

/- ------------------------------------------------------------------
   The webview side: evaluation of a string literal inside the script
   built at lib.rs lines 151-154.  The literal is parsed by the
   ECMAScript engine of the webview; we model the engine with a
   character-by-character state machine over the literal.  Note that
   Lean Char is a unicode scalar, so unpaired surrogate escapes (which
   the encoder above never produces) are folded to the default scalar.
   ------------------------------------------------------------------ -/

def hexVal (c : Char) : Option Nat :=
  if 48 ≤ c.toNat ∧ c.toNat ≤ 57 then some (c.toNat - 48)
  else if 97 ≤ c.toNat ∧ c.toNat ≤ 102 then some (c.toNat - 87)
  else if 65 ≤ c.toNat ∧ c.toNat ≤ 70 then some (c.toNat - 55)
  else none

inductive DecState where
  | normal (acc : List Char)
  | escBackslash (acc : List Char)
  | escHex (acc : List Char) (remaining : Nat) (value : Nat)
  | closed (acc : List Char)
  | failed
  deriving DecidableEq

def stepDec (st : DecState) (c : Char) : DecState :=
  match st with
  | .normal acc =>
    if c = '"' then .closed acc
    else if c = '\\' then .escBackslash acc
    else .normal (acc ++ [c])
  | .escBackslash acc =>
    if c = '"' then .normal (acc ++ ['"'])
    else if c = '\\' then .normal (acc ++ ['\\'])
    else if c = '/' then .normal (acc ++ ['/'])
    else if c = 'b' then .normal (acc ++ [Char.ofNat 8])
    else if c = 'f' then .normal (acc ++ [Char.ofNat 12])
    else if c = 'n' then .normal (acc ++ [Char.ofNat 10])
    else if c = 'r' then .normal (acc ++ [Char.ofNat 13])
    else if c = 't' then .normal (acc ++ [Char.ofNat 9])
    else if c = 'u' then .escHex acc 4 0
    else .failed
  | .escHex acc remaining value =>
    match hexVal c with
    | some h =>
      if remaining = 1 then .normal (acc ++ [Char.ofNat (value * 16 + h)])
      else .escHex acc (remaining - 1) (value * 16 + h)
    | none => .failed
  | .closed _ => .failed
  | .failed => .failed

/-- Decode a complete string literal: a leading quote, a body, a closing
quote as the final character.  Returns the decoded character sequence. -/
def jsLitDecode (lit : List Char) : Option (List Char) :=
  match lit with
  | '"' :: body =>
    match body.foldl stepDec (DecState.normal []) with
    | .closed acc => some acc
    | _ => none
  | _ => none

theorem hexVal_hexDigitChar : ∀ m : Nat, m < 16 → hexVal (hexDigitChar m) = some m := by
  decide

theorem foldl_stepDec_escapeChar (c : Char) (acc : List Char) :
    List.foldl stepDec (DecState.normal acc) (escapeChar c) = DecState.normal (acc ++ [c]) := by
  by_cases h1 : c = '"'
  · subst h1; rfl
  by_cases h2 : c = '\\'
  · subst h2; rfl
  by_cases h3 : c.toNat < 32
  · have hofn := Char.ofNat_toNat c
    by_cases e8 : c.toNat = 8
    · rw [escapeChar, if_neg h1, if_neg h2, if_pos h3, if_pos e8]
      rw [e8] at hofn
      show DecState.normal (acc ++ [Char.ofNat 8]) = DecState.normal (acc ++ [c])
      rw [hofn]
    by_cases e9 : c.toNat = 9
    · rw [escapeChar, if_neg h1, if_neg h2, if_pos h3, if_neg e8, if_pos e9]
      rw [e9] at hofn
      show DecState.normal (acc ++ [Char.ofNat 9]) = DecState.normal (acc ++ [c])
      rw [hofn]
    by_cases e10 : c.toNat = 10
    · rw [escapeChar, if_neg h1, if_neg h2, if_pos h3, if_neg e8, if_neg e9, if_pos e10]
      rw [e10] at hofn
      show DecState.normal (acc ++ [Char.ofNat 10]) = DecState.normal (acc ++ [c])
      rw [hofn]
    by_cases e12 : c.toNat = 12
    · rw [escapeChar, if_neg h1, if_neg h2, if_pos h3, if_neg e8, if_neg e9, if_neg e10,
        if_pos e12]
      rw [e12] at hofn
      show DecState.normal (acc ++ [Char.ofNat 12]) = DecState.normal (acc ++ [c])
      rw [hofn]
    by_cases e13 : c.toNat = 13
    · rw [escapeChar, if_neg h1, if_neg h2, if_pos h3, if_neg e8, if_neg e9, if_neg e10,
        if_neg e12, if_pos e13]
      rw [e13] at hofn
      show DecState.normal (acc ++ [Char.ofNat 13]) = DecState.normal (acc ++ [c])
      rw [hofn]
    · rw [escapeChar, if_neg h1, if_neg h2, if_pos h3, if_neg e8, if_neg e9, if_neg e10,
        if_neg e12, if_neg e13]
      have hd1 : hexVal (hexDigitChar (c.toNat / 16)) = some (c.toNat / 16) :=
        hexVal_hexDigitChar _ (by omega)
      have hd2 : hexVal (hexDigitChar (c.toNat % 16)) = some (c.toNat % 16) :=
        hexVal_hexDigitChar _ (by omega)
      show List.foldl stepDec
        (DecState.escHex acc 2 0) [hexDigitChar (c.toNat / 16), hexDigitChar (c.toNat % 16)]
          = DecState.normal (acc ++ [c])
      rw [List.foldl_cons]
      rw [show stepDec (DecState.escHex acc 2 0) (hexDigitChar (c.toNat / 16))
            = DecState.escHex acc 1 (0 * 16 + c.toNat / 16) by
        rw [stepDec, hd1]; rfl]
      rw [List.foldl_cons]
      rw [show stepDec (DecState.escHex acc 1 (0 * 16 + c.toNat / 16))
            (hexDigitChar (c.toNat % 16))
            = DecState.normal (acc ++ [Char.ofNat ((0 * 16 + c.toNat / 16) * 16 + c.toNat % 16)])
          by rw [stepDec, hd2]; rfl]
      have harith : (0 * 16 + c.toNat / 16) * 16 + c.toNat % 16 = c.toNat := by omega
      rw [List.foldl_nil, harith, hofn]
  · rw [escapeChar, if_neg h1, if_neg h2, if_neg h3]
    rw [List.foldl_cons, List.foldl_nil, stepDec, if_neg h1, if_neg h2]

theorem foldl_stepDec_escapeBody (s : List Char) (acc : List Char) :
    List.foldl stepDec (DecState.normal acc) (escapeBody s) = DecState.normal (acc ++ s) := by
  induction s generalizing acc with
  | nil => simp [escapeBody]
  | cons c cs ih =>
    rw [escapeBody, List.foldl_append, foldl_stepDec_escapeChar, ih, List.append_assoc,
      List.singleton_append]

/-- Round trip: the webview decodes the serde_json string literal back to
exactly the original character sequence. -/
theorem jsLitDecode_jsonEncodeString (s : List Char) :
    jsLitDecode (jsonEncodeString s) = some s := by
  rw [jsonEncodeString, jsLitDecode, List.foldl_append, foldl_stepDec_escapeBody,
    List.nil_append]
  rfl

/- ------------------------------------------------------------------
   Activation dispatch: the RunEvent::Opened handler, lib.rs lines
   140-158.  The handler checks for an empty batch, locates the main
   window (doing nothing if absent), shows and focuses it, and for
   each URL builds a script from the serde_json-serialized URL string
   and evaluates it in the webview.  The HostAction.evalCallback
   payload is the serialized literal spliced (twice, identically) into
   the fixed script text by format!: the script pushes the decoded
   literal onto window.__plutoAuthCallbackQueue and dispatches a
   pluto-auth-callback CustomEvent whose detail.url is the same
   decoded literal.
   ------------------------------------------------------------------ -/

/-- serde_json::to_string applied to a Rust String, as in
if let Ok(serialized) = ... at lib.rs line 150.  Serialization of a
plain string value is infallible, hence always some. -/
def serdeToString (s : List Char) : Option (List Char) :=
  some (jsonEncodeString s)

inductive HostAction where
  | showWindow
  | focusWindow
  | evalCallback (serialized : List Char)
  deriving DecidableEq

def openedHandler (hasMainWindow : Bool) (urls : List (List Char)) : List HostAction :=
  if urls.isEmpty then []
  else if hasMainWindow then
    HostAction.showWindow :: HostAction.focusWindow ::
      urls.filterMap (fun u => (serdeToString u).map HostAction.evalCallback)
  else []

/-- Observable state of the webview runtime: window visibility and focus,
the window.__plutoAuthCallbackQueue array, and the ordered list of
detail.url payloads of dispatched pluto-auth-callback events. -/
structure Webview where
  visible : Bool
  focused : Bool
  queue : List (List Char)
  events : List (List Char)
  deriving DecidableEq

def applyAction (w : Webview) (a : HostAction) : Webview :=
  match a with
  | .showWindow => { w with visible := true }
  | .focusWindow => { w with focused := true }
  | .evalCallback serialized =>
    match jsLitDecode serialized with
    | some s => { w with queue := w.queue ++ [s], events := w.events ++ [s] }
    | none => w

def runActions (w : Webview) (as : List HostAction) : Webview :=
  as.foldl applyAction w

theorem applyAction_evalCallback (w : Webview) (u : List Char) :
    applyAction w (HostAction.evalCallback (jsonEncodeString u)) =
      { w with queue := w.queue ++ [u], events := w.events ++ [u] } := by
  rw [applyAction, jsLitDecode_jsonEncodeString]

theorem runActions_evalList (urls : List (List Char)) (w : Webview) :
    runActions w (urls.map (fun u => HostAction.evalCallback (jsonEncodeString u))) =
      { w with queue := w.queue ++ urls, events := w.events ++ urls } := by
  induction urls generalizing w with
  | nil => simp [runActions]
  | cons u us ih =>
    rw [List.map_cons]
    show runActions (applyAction w (HostAction.evalCallback (jsonEncodeString u)))
      (us.map (fun u => HostAction.evalCallback (jsonEncodeString u))) = _
    rw [applyAction_evalCallback, ih]
    simp

theorem filterMap_serde (urls : List (List Char)) :
    urls.filterMap (fun u => (serdeToString u).map HostAction.evalCallback) =
      urls.map (fun u => HostAction.evalCallback (jsonEncodeString u)) := by
  induction urls with
  | nil => rfl
  | cons u us ih =>
    show HostAction.evalCallback (jsonEncodeString u) ::
        us.filterMap (fun u => (serdeToString u).map HostAction.evalCallback) = _
    rw [ih, List.map_cons]

theorem runActions_openedHandler (w : Webview) (urls : List (List Char)) (h : urls ≠ []) :
    runActions w (openedHandler true urls) =
      { w with visible := true, focused := true,
               queue := w.queue ++ urls, events := w.events ++ urls } := by
  rw [openedHandler, if_neg (by simpa using h), if_pos rfl, filterMap_serde]
  show runActions
    (applyAction (applyAction w HostAction.showWindow) HostAction.focusWindow)
    (urls.map (fun u => HostAction.evalCallback (jsonEncodeString u))) = _
  rw [runActions_evalList]
  rfl

/-- The URL string of scenario S2: x://y?q="hello\world" with a literal
double quote and backslash. -/
def s2SpecialUrl : List Char := "x://y?q=\"hello\\world\"".toList

/-- Claim C2: for every activation URL delivered in an Opened batch while the
main window exists, the string appended to window.__plutoAuthCallbackQueue
and the detail.url string of the dispatched pluto-auth-callback event equal
the delivered URL exactly, character for character; in particular, after
delivering the batch containing only x://y?q="hello\world", the last queue
entry is exactly that string. -/
theorem opened_urls_delivered_verbatim (w : Webview) (urls : List (List Char)) :
    (runActions w (openedHandler true urls)).queue = w.queue ++ urls ∧
    (runActions w (openedHandler true urls)).events = w.events ++ urls ∧
    (runActions w (openedHandler true [s2SpecialUrl])).queue.getLast? = some s2SpecialUrl := by
  refine ⟨?_, ?_, ?_⟩
  · rcases urls with _ | ⟨u, us⟩
    · simp [openedHandler, runActions]
    · rw [runActions_openedHandler w (u :: us) (by simp)]
  · rcases urls with _ | ⟨u, us⟩
    · simp [openedHandler, runActions]
    · rw [runActions_openedHandler w (u :: us) (by simp)]
  · rw [runActions_openedHandler w [s2SpecialUrl] (by simp)]
    exact List.getLast?_concat _

/-- Claim C6: an empty Opened batch causes no host action; with no main window a
non-empty batch is dropped with no effect on the webview; with a main
window, the dispatcher shows and focuses the window before any script
evaluation, then evaluates, in the received order, one callback script per
URL carrying its serde_json-serialized literal, so the webview observes the
URLs appended to the queue and dispatched as events in that order. -/
theorem opened_batch_dispatch (w : Webview) (urls : List (List Char)) (hasMain : Bool) :
    openedHandler hasMain [] = [] ∧
    openedHandler false urls = [] ∧
    runActions w (openedHandler false urls) = w ∧
    (urls ≠ [] →
      openedHandler true urls =
        HostAction.showWindow :: HostAction.focusWindow ::
          urls.map (fun u => HostAction.evalCallback (jsonEncodeString u)) ∧
      (runActions w (openedHandler true urls)).visible = true ∧
      (runActions w (openedHandler true urls)).focused = true ∧
      (runActions w (openedHandler true urls)).queue = w.queue ++ urls ∧
      (runActions w (openedHandler true urls)).events = w.events ++ urls) := by
  refine ⟨rfl, ?_, ?_, ?_⟩
  · rcases urls with _ | ⟨u, us⟩ <;> rfl
  · rcases urls with _ | ⟨u, us⟩ <;> rfl
  · intro h
    rw [runActions_openedHandler w urls h]
    refine ⟨?_, rfl, rfl, rfl, rfl⟩
    rw [openedHandler, if_neg (by simpa using h), if_pos rfl, filterMap_serde]

/-- Witness for C6 at the concrete batch of scenario S1. -/
theorem opened_batch_dispatch_witness :
    (runActions (Webview.mk false false [] [])
        (openedHandler true ["plutoduck://auth?code=abc".toList])).queue =
      ["plutoduck://auth?code=abc".toList] ∧
    (runActions (Webview.mk false false [] [])
        (openedHandler true ["plutoduck://auth?code=abc".toList])).visible = true := by
  have h := opened_batch_dispatch (Webview.mk false false [] [])
    ["plutoduck://auth?code=abc".toList] true
  obtain ⟨-, -, -, h4⟩ := h
  obtain ⟨-, hvis, -, hqueue, -⟩ := h4 (by simp)
  exact ⟨by rw [hqueue]; rfl, hvis⟩

/- ------------------------------------------------------------------
   Sidecar teardown: ServerProcess::drop (lib.rs lines 257-269) and
   the RunEvent::Exit handler (lib.rs lines 160-172).  Both paths lock
   the shared Arc<Mutex<Option<Child>>>, take() the child out of the
   Option, and on some child call kill() then wait().  The shared state
   is modelled as Option Nat (the child process id); a teardown
   invocation returns the kill and wait events it performs together
   with the state it leaves behind.
   ------------------------------------------------------------------ -/

inductive ProcEvent where
  | killSignal (pid : Nat)
  | waitReap (pid : Nat)
  deriving DecidableEq

/-- One teardown path (either the drop guard or the Exit handler): take
the child out of the mutex-protected Option; if a child was present, kill
it and wait for it; otherwise do nothing. -/
def teardownTake (s : Option Nat) : List ProcEvent × Option Nat :=
  match s with
  | some pid => ([ProcEvent.killSignal pid, ProcEvent.waitReap pid], none)
  | none => ([], none)

/-- Run n successive teardown invocations (each is either the drop guard
destructor or the explicit Exit handler; both execute the same take-based
teardown) and collect all process events they perform. -/
def runTeardowns : Option Nat → Nat → List ProcEvent
  | _, 0 => []
  | s, n + 1 =>
    let r := teardownTake s
    r.1 ++ runTeardowns r.2 n

theorem runTeardowns_none (n : Nat) : runTeardowns none n = [] := by
  induction n with
  | zero => rfl
  | succ n ih => rw [runTeardowns]; simpa [teardownTake] using ih

/-- Claim C1: across the program lifetime the sidecar child receives exactly one
kill-and-wait pair, regardless of how many teardown paths run (one via the
drop guard, one via the Exit handler, or both in either order): the first
invocation takes the child from the shared Option and performs kill then
wait, and every later invocation observes absence and does nothing. -/
theorem teardown_exactly_once (pid : Nat) (n : Nat) (h : 1 ≤ n) :
    runTeardowns (some pid) n = [ProcEvent.killSignal pid, ProcEvent.waitReap pid] := by
  rcases n with _ | m
  · omega
  · rw [runTeardowns]
    show [ProcEvent.killSignal pid, ProcEvent.waitReap pid] ++ runTeardowns none m = _
    rw [runTeardowns_none, List.append_nil]

/-- Witness for C1: both teardown paths run (drop guard and Exit handler),
the child with pid 7 is killed and reaped exactly once. -/
theorem teardown_exactly_once_witness :
    1 ≤ 2 ∧ runTeardowns (some 7) 2 = [ProcEvent.killSignal 7, ProcEvent.waitReap 7] :=
  ⟨by decide, teardown_exactly_once 7 2 (by decide)⟩

/- ------------------------------------------------------------------
   The open_external_url command, lib.rs lines 5-35.  The URL is
   trimmed with str::trim (Unicode White_Space on both ends), checked
   for an http:// or https:// lowercase prefix, and on success the
   platform browser launcher is invoked once with the trimmed URL as
   its argument (open on macOS, cmd /C start on Windows, xdg-open
   elsewhere - on every platform exactly one child process invocation
   carrying the trimmed URL).  The launcher outcome is an input of the
   model: either status() returned an Err at spawn time, or the child
   exited with a success flag and a Display rendering of its status.
   ------------------------------------------------------------------ -/

/-- Unicode White_Space, the character class used by str::trim. -/
def isRustWhitespace (c : Char) : Bool :=
  c.toNat = 0x09 || c.toNat = 0x0A || c.toNat = 0x0B || c.toNat = 0x0C ||
  c.toNat = 0x0D || c.toNat = 0x20 || c.toNat = 0x85 || c.toNat = 0xA0 ||
  c.toNat = 0x1680 || (0x2000 ≤ c.toNat && c.toNat ≤ 0x200A) ||
  c.toNat = 0x2028 || c.toNat = 0x2029 || c.toNat = 0x202F ||
  c.toNat = 0x205F || c.toNat = 0x3000

def rustTrim (s : List Char) : List Char :=
  ((s.dropWhile isRustWhitespace).reverse.dropWhile isRustWhitespace).reverse

def beginsWith : List Char → List Char → Bool
  | [], _ => true
  | _ :: _, [] => false
  | p :: ps, c :: cs => p == c && beginsWith ps cs

/-- The validation predicate of lib.rs line 8: the trimmed URL starts with
http:// or https://. -/
def okPrefixHttp (s : List Char) : Bool :=
  beginsWith "http://".toList s || beginsWith "https://".toList s

inductive LaunchOutcome where
  | spawnFailed (err : List Char)
  | exited (success : Bool) (statusText : List Char)
  deriving DecidableEq

def rejectionMsg : List Char := "Only http(s) URLs are allowed".toList

/-- The open_external_url command.  The first component of the result is
the list of browser-launcher invocations performed, each recorded as the
URL argument passed to the launcher. -/
def open_external_url (url : List Char) (outcome : LaunchOutcome) :
    List (List Char) × Except (List Char) Unit :=
  let trimmed := rustTrim url
  if !(beginsWith "http://".toList trimmed) && !(beginsWith "https://".toList trimmed) then
    ([], Except.error rejectionMsg)
  else
    match outcome with
    | .spawnFailed err => ([trimmed], Except.error ("Failed to launch browser: ".toList ++ err))
    | .exited true _ => ([trimmed], Except.ok ())
    | .exited false st =>
      ([trimmed], Except.error ("Browser command failed with status: ".toList ++ st))

theorem open_external_url_of_reject (url : List Char) (outcome : LaunchOutcome)
    (h : okPrefixHttp (rustTrim url) = false) :
    open_external_url url outcome = ([], Except.error rejectionMsg) := by
  have h2 : (!(beginsWith "http://".toList (rustTrim url)) &&
      !(beginsWith "https://".toList (rustTrim url))) = true := by
    rw [okPrefixHttp] at h
    rcases Bool.or_eq_false_iff.mp h with ⟨ha, hb⟩
    rw [ha, hb]
    rfl
  rw [open_external_url.eq_def]
  simp only [h2]
  rfl

theorem open_external_url_of_accept (url : List Char) (outcome : LaunchOutcome)
    (h : okPrefixHttp (rustTrim url) = true) :
    open_external_url url outcome =
      match outcome with
      | .spawnFailed err =>
        ([rustTrim url], Except.error ("Failed to launch browser: ".toList ++ err))
      | .exited true _ => ([rustTrim url], Except.ok ())
      | .exited false st =>
        ([rustTrim url], Except.error ("Browser command failed with status: ".toList ++ st)) := by
  have h2 : (!(beginsWith "http://".toList (rustTrim url)) &&
      !(beginsWith "https://".toList (rustTrim url))) = false := by
    rw [okPrefixHttp] at h
    rcases Bool.or_eq_true_iff.mp h with ha | hb
    · rw [ha]; rfl
    · rw [hb]
      rcases beginsWith "http://".toList (rustTrim url) <;> rfl
  rw [open_external_url.eq_def]
  simp only [h2]
  rfl

theorem failMsg_ne_rejectionMsg (e : List Char) :
    "Failed to launch browser: ".toList ++ e ≠ rejectionMsg := by
  intro h
  have h1 : ("Failed to launch browser: ".toList ++ e).head? = some 'F' := rfl
  have h2 : rejectionMsg.head? = some 'O' := rfl
  rw [h] at h1
  exact absurd (Option.some.inj (h1.symm.trans h2)) (by decide)

theorem statusMsg_ne_rejectionMsg (st : List Char) :
    "Browser command failed with status: ".toList ++ st ≠ rejectionMsg := by
  intro h
  have h1 : ("Browser command failed with status: ".toList ++ st).head? = some 'B' := rfl
  have h2 : rejectionMsg.head? = some 'O' := rfl
  rw [h] at h1
  exact absurd (Option.some.inj (h1.symm.trans h2)) (by decide)

/-- Claim C5: open_external_url rejects with exactly the message
"Only http(s) URLs are allowed" if and only if the whitespace-trimmed URL
begins with neither http:// nor https://; in the rejecting case nothing
else happens (no launcher invocation), and with a successfully exiting
launcher the command returns ok exactly on the accepted URLs. -/
theorem open_external_url_validation (url : List Char) (outcome : LaunchOutcome) :
    ((open_external_url url outcome).2 = Except.error rejectionMsg ↔
      okPrefixHttp (rustTrim url) = false) ∧
    (okPrefixHttp (rustTrim url) = false →
      open_external_url url outcome = ([], Except.error rejectionMsg)) ∧
    (∀ st, ((open_external_url url (LaunchOutcome.exited true st)).2 = Except.ok () ↔
      okPrefixHttp (rustTrim url) = true)) := by
  refine ⟨⟨?_, ?_⟩, open_external_url_of_reject url outcome, ?_⟩
  · intro herr
    by_contra hne
    have htrue : okPrefixHttp (rustTrim url) = true := by
      cases hok : okPrefixHttp (rustTrim url)
      · exact absurd hok hne
      · rfl
    rw [open_external_url_of_accept url outcome htrue] at herr
    cases outcome with
    | spawnFailed e => exact failMsg_ne_rejectionMsg e (Except.error.inj herr)
    | exited succ st =>
      cases succ
      · exact statusMsg_ne_rejectionMsg st (Except.error.inj herr)
      · exact Except.noConfusion herr
  · intro h
    rw [open_external_url_of_reject url outcome h]
  · intro st
    constructor
    · intro hok
      by_contra hne
      have hfalse : okPrefixHttp (rustTrim url) = false := by
        cases hf : okPrefixHttp (rustTrim url)
        · rfl
        · exact absurd hf hne
      rw [open_external_url_of_reject url _ hfalse] at hok
      exact Except.noConfusion hok
    · intro htrue
      rw [open_external_url_of_accept url _ htrue]

/-- Witness for C5 at the URL of scenario S3, which is rejected with the
exact message, and at a plain https URL, which is accepted. -/
theorem open_external_url_validation_witness :
    (open_external_url "javascript:alert(1)".toList (LaunchOutcome.exited true []) =
      ([], Except.error rejectionMsg)) ∧
    (open_external_url "https://example.com".toList (LaunchOutcome.exited true [])).2 =
      Except.ok () := by
  constructor
  · exact (open_external_url_validation "javascript:alert(1)".toList
      (LaunchOutcome.exited true [])).2.1 (by decide)
  · exact (open_external_url_validation "https://example.com".toList
      (LaunchOutcome.exited true [])).2.2 [] |>.mpr (by decide)


/-- Claim C8: for every accepted URL the platform browser launcher is invoked
exactly once with the whitespace-trimmed URL as its argument; the command
returns ok if and only if the launcher exits successfully, returns a
message incorporating the launcher exit status on unsuccessful exit, and
returns a message prefixed "Failed to launch browser: " when spawning the
launcher fails. -/
theorem open_external_url_dispatch (url : List Char) (outcome : LaunchOutcome)
    (h : okPrefixHttp (rustTrim url) = true) :
    (open_external_url url outcome).1 = [rustTrim url] ∧
    ((open_external_url url outcome).2 = Except.ok () ↔
      ∃ st, outcome = LaunchOutcome.exited true st) ∧
    (∀ st, (open_external_url url (LaunchOutcome.exited false st)).2 =
      Except.error ("Browser command failed with status: ".toList ++ st)) ∧
    (∀ e, (open_external_url url (LaunchOutcome.spawnFailed e)).2 =
      Except.error ("Failed to launch browser: ".toList ++ e)) := by
  refine ⟨?_, ⟨?_, ?_⟩, ?_, ?_⟩
  · rw [open_external_url_of_accept url outcome h]
    cases outcome with
    | spawnFailed e => rfl
    | exited succ st => cases succ <;> rfl
  · intro hok
    rw [open_external_url_of_accept url outcome h] at hok
    cases outcome with
    | spawnFailed e => exact Except.noConfusion hok
    | exited succ st =>
      cases succ
      · exact Except.noConfusion hok
      · exact ⟨st, rfl⟩
  · rintro ⟨st, rfl⟩
    rw [open_external_url_of_accept url _ h]
  · intro st
    rw [open_external_url_of_accept url _ h]
  · intro e
    rw [open_external_url_of_accept url _ h]

/-- Witness for C8 at the URL of scenario S4: the launcher is invoked
exactly once with the trimmed argument and the command returns ok. -/
theorem open_external_url_dispatch_witness :
    okPrefixHttp (rustTrim "  https://example.com/path?x=1  ".toList) = true ∧
    (open_external_url "  https://example.com/path?x=1  ".toList
        (LaunchOutcome.exited true "exit status: 0".toList)).1 =
      ["https://example.com/path?x=1".toList] ∧
    (open_external_url "  https://example.com/path?x=1  ".toList
        (LaunchOutcome.exited true "exit status: 0".toList)).2 = Except.ok () := by
  have h : okPrefixHttp (rustTrim "  https://example.com/path?x=1  ".toList) = true := by
    decide
  have hmain := open_external_url_dispatch "  https://example.com/path?x=1  ".toList
    (LaunchOutcome.exited true "exit status: 0".toList) h
  refine ⟨h, ?_, hmain.2.1.mpr ⟨"exit status: 0".toList, rfl⟩⟩
  rw [hmain.1]
  decide

theorem beginsWith_cons_shape (p : Char) (ps s : List Char)
    (h : beginsWith (p :: ps) s = true) : ∃ t, s = p :: t := by
  cases s with
  | nil => exact absurd h (by rw [beginsWith]; exact Bool.false_ne_true)
  | cons a t =>
    refine ⟨t, ?_⟩
    rw [beginsWith] at h
    rcases Bool.and_eq_true_iff.mp h with ⟨hpa, -⟩
    rw [beq_iff_eq.mp hpa]

/-- Claim C10: the scheme check is case-sensitive: a trimmed URL beginning with
the uppercase variant HTTP:// or HTTPS:// is rejected with the rejection
error, and in every rejecting case the browser launcher is never invoked
(rejection happens before any side effect). -/
theorem open_external_url_case_sensitive (url : List Char) (outcome : LaunchOutcome) :
    ((beginsWith "HTTP://".toList (rustTrim url) = true ∨
      beginsWith "HTTPS://".toList (rustTrim url) = true) →
      open_external_url url outcome = ([], Except.error rejectionMsg)) ∧
    (okPrefixHttp (rustTrim url) = false → (open_external_url url outcome).1 = []) := by
  constructor
  · intro hup
    have hfalse : okPrefixHttp (rustTrim url) = false := by
      rcases hup with hup | hup
      · obtain ⟨t, ht⟩ := beginsWith_cons_shape _ _ _ hup
        rw [okPrefixHttp, ht]
        rfl
      · obtain ⟨t, ht⟩ := beginsWith_cons_shape _ _ _ hup
        rw [okPrefixHttp, ht]
        rfl
    exact open_external_url_of_reject url outcome hfalse
  · intro h
    rw [open_external_url_of_reject url outcome h]

/-- Witness for C10: an uppercase-scheme URL is rejected and no launcher
invocation is recorded. -/
theorem open_external_url_case_sensitive_witness :
    open_external_url "HTTP://example.com".toList (LaunchOutcome.exited true []) =
      ([], Except.error rejectionMsg) :=
  (open_external_url_case_sensitive "HTTP://example.com".toList
    (LaunchOutcome.exited true [])).1 (Or.inl (by decide))

/- ------------------------------------------------------------------
   Supervisor launch and shell setup, lib.rs lines 44-78 (setup
   closure) and 273-331 (node_server::launch), 333-340 (navigate),
   342-365 (server_root), 384-386 (frontend_url).  Paths are character
   lists; PathBuf::join is modelled as appending a separator and the
   component.  Filesystem and platform outcomes (directory existence,
   file creation, spawn success, readiness) are inputs of the model
   via Env; the result of wait_for_server inside launch is the
   serverReady flag (the prober itself is modelled separately below).
   ------------------------------------------------------------------ -/

def pathJoin (a b : List Char) : List Char := a ++ '/' :: b

def SERVER_DIST_DEBUG : List Char := "../../dist/pluto-duck-frontend-server".toList

def SERVER_DIST_RESOURCE : List Char := "dist/pluto-duck-frontend-server".toList

def FRONTEND_HOST : List Char := "127.0.0.1".toList

def FRONTEND_PORT : Nat := 3100

def frontend_url : List Char :=
  "http://".toList ++ FRONTEND_HOST ++ ':' :: (Nat.repr FRONTEND_PORT).toList

structure Env where
  debugAssertions : Bool
  manifestDir : List Char
  debugServerDirExists : Bool
  resourceDirAvailable : Bool
  resourceDir : List Char
  resourceServerDirExists : Bool
  logDirCreateOk : Bool
  stdoutLogCreateOk : Bool
  stderrLogCreateOk : Bool
  serverEntryExists : Bool
  spawnOk : Bool
  serverReady : Bool
  mainWindowExists : Bool
  windowBuildOk : Bool
  navigateApiOk : Bool

inductive ShellEvent where
  | spawnChild
  | warnNotReady
  | logLaunchError (msg : List Char)
  | windowObtained
  | windowCreated
  | navigate (url : List Char)
  | logNavigateWarn
  | installCloseHandlers
  deriving DecidableEq

def server_root (env : Env) : Except (List Char) (List Char) :=
  if env.debugAssertions then
    let debugPath := pathJoin env.manifestDir SERVER_DIST_DEBUG
    if !env.debugServerDirExists then
      Except.error ("node server directory not found at ".toList ++ debugPath)
    else Except.ok debugPath
  else if !env.resourceDirAvailable then
    Except.error "resource directory unavailable".toList
  else
    let primary := pathJoin env.resourceDir SERVER_DIST_RESOURCE
    if env.resourceServerDirExists then Except.ok primary
    else
      Except.error
        ("node server directory not found in resources (".toList ++ primary ++ ")".toList)

/-- The entry-file path probed by launch: server_root joined with
server.js. -/
def probedEntryPath (root : List Char) : List Char := pathJoin root "server.js".toList

def launch (env : Env) : List ShellEvent × Except (List Char) Unit :=
  if env.debugAssertions then ([], Except.ok ())
  else
    match server_root env with
    | Except.error e => ([], Except.error e)
    | Except.ok root =>
      if !env.logDirCreateOk then ([], Except.error "failed to create log directory".toList)
      else if !env.stdoutLogCreateOk then
        ([], Except.error "failed to create stdout log".toList)
      else if !env.stderrLogCreateOk then
        ([], Except.error "failed to create stderr log".toList)
      else if !env.serverEntryExists then
        ([], Except.error ("node server entry not found at ".toList ++ probedEntryPath root))
      else if !env.spawnOk then
        ([], Except.error "failed to spawn node server process".toList)
      else
        (ShellEvent.spawnChild ::
          (if env.serverReady then [] else [ShellEvent.warnNotReady]), Except.ok ())

def navigate_window (env : Env) : List ShellEvent × Except (List Char) Unit :=
  if env.debugAssertions then ([], Except.ok ())
  else
    -- the parse of the constant loopback URL always succeeds
    if env.navigateApiOk then ([ShellEvent.navigate frontend_url], Except.ok ())
    else ([ShellEvent.navigate frontend_url],
      Except.error "failed to navigate to frontend url".toList)

/-- The setup closure: launch (errors are logged, setup continues), get or
create the main window (a build failure aborts setup), then
navigate_window (errors are logged as warnings, setup continues), then the
close-request handlers are installed on every window.  Platform chrome
customization carries no observable state and is omitted. -/
def setup (env : Env) : List ShellEvent × Except (List Char) Unit :=
  let launched := launch env
  let evs := launched.1 ++
    (match launched.2 with
     | Except.error e => [ShellEvent.logLaunchError e]
     | Except.ok _ => [])
  if env.mainWindowExists then
    let nav := navigate_window env
    (evs ++ [ShellEvent.windowObtained] ++ nav.1 ++
      (match nav.2 with
       | Except.error _ => [ShellEvent.logNavigateWarn]
       | Except.ok _ => []) ++ [ShellEvent.installCloseHandlers], Except.ok ())
  else if env.windowBuildOk then
    let nav := navigate_window env
    (evs ++ [ShellEvent.windowCreated] ++ nav.1 ++
      (match nav.2 with
       | Except.error _ => [ShellEvent.logNavigateWarn]
       | Except.ok _ => []) ++ [ShellEvent.installCloseHandlers], Except.ok ())
  else (evs, Except.error "window build failed".toList)

/-- A release-mode environment in which everything is healthy except that
server.js is absent from the resolved runtime directory. -/
def envEntryMissing : Env :=
  { debugAssertions := false
    manifestDir := "/repo/src/tauri-shell/src-tauri".toList
    debugServerDirExists := true
    resourceDirAvailable := true
    resourceDir := "/opt/pluto-duck/resources".toList
    resourceServerDirExists := true
    logDirCreateOk := true
    stdoutLogCreateOk := true
    stderrLogCreateOk := true
    serverEntryExists := false
    spawnOk := true
    serverReady := false
    mainWindowExists := false
    windowBuildOk := true
    navigateApiOk := true }

/-- Counterexample to claim C3: with server.js absent, launch fails, yet the
setup trace still contains a navigation of the webview to the sidecar URL
http://127.0.0.1:3100 - the navigation is not suppressed on launch
failure. -/
theorem launch_failure_still_navigates :
    (launch envEntryMissing).2 ≠ Except.ok () ∧
    ShellEvent.windowCreated ∈ (setup envEntryMissing).1 ∧
    ShellEvent.navigate frontend_url ∈ (setup envEntryMissing).1 := by
  refine ⟨fun h => Except.noConfusion h, ?_, ?_⟩ <;> decide

/-- Claim C3 as amended: if supervisor launch fails in a release build, the shell
continues running (setup still succeeds) and the main window is created,
but the webview is nevertheless navigated to the sidecar URL - navigation
is attempted unconditionally, not gated on launch success or readiness. -/
theorem launch_failure_window_created_and_navigated (env : Env)
    (hdbg : env.debugAssertions = false)
    (hfail : (launch env).2 ≠ Except.ok ())
    (hwin : env.mainWindowExists = false)
    (hbuild : env.windowBuildOk = true)
    (hnav : env.navigateApiOk = true) :
    (setup env).2 = Except.ok () ∧
    ShellEvent.windowCreated ∈ (setup env).1 ∧
    ShellEvent.navigate frontend_url ∈ (setup env).1 := by
  have hnavw : navigate_window env = ([ShellEvent.navigate frontend_url], Except.ok ()) := by
    rw [navigate_window, hdbg, hnav]
    rfl
  rw [setup, hwin, hbuild]
  cases hl : (launch env).2 with
  | ok u => exact absurd (by rw [hl]) hfail
  | error e =>
    rw [hnavw]
    refine ⟨rfl, ?_, ?_⟩ <;> simp

/-- Witness for C3 (amended) at the concrete environment with server.js
absent. -/
theorem launch_failure_window_created_and_navigated_witness :
    (setup envEntryMissing).2 = Except.ok () ∧
    ShellEvent.windowCreated ∈ (setup envEntryMissing).1 ∧
    ShellEvent.navigate frontend_url ∈ (setup envEntryMissing).1 :=
  launch_failure_window_created_and_navigated envEntryMissing rfl
    (fun h => Except.noConfusion h) rfl rfl rfl

/- ------------------------------------------------------------------
   Substring containment, for the error message properties of C4.
   ------------------------------------------------------------------ -/

def containsSeg (needle : List Char) : List Char → Bool
  | [] => needle.isEmpty
  | c :: t => beginsWith needle (c :: t) || containsSeg needle t

theorem beginsWith_append (p t : List Char) : beginsWith p (p ++ t) = true := by
  induction p with
  | nil => rfl
  | cons c cs ih => rw [List.cons_append, beginsWith, ih, beq_self_eq_true]; rfl

theorem beginsWith_self (p : List Char) : beginsWith p p = true := by
  have h := beginsWith_append p []
  rwa [List.append_nil] at h

theorem containsSeg_append_self (pre n : List Char) :
    containsSeg n (pre ++ n) = true := by
  induction pre with
  | nil =>
    rw [List.nil_append]
    cases n with
    | nil => rfl
    | cons c t => rw [containsSeg, beginsWith_self, Bool.true_or]
  | cons a pre ih =>
    rw [List.cons_append, containsSeg, ih, Bool.or_true]

/-- A release-mode filesystem layout in which server.js is absent and, in
addition, the log directory cannot be created (for example a regular file
occupies the logs path under the data root). -/
def envLogDirBlocked : Env :=
  { debugAssertions := false
    manifestDir := "/repo/src/tauri-shell/src-tauri".toList
    debugServerDirExists := true
    resourceDirAvailable := true
    resourceDir := "/opt/pluto-duck/resources".toList
    resourceServerDirExists := true
    logDirCreateOk := false
    stdoutLogCreateOk := true
    stderrLogCreateOk := true
    serverEntryExists := false
    spawnOk := true
    serverReady := false
    mainWindowExists := false
    windowBuildOk := true
    navigateApiOk := true }

/-- Counterexample to claim C4: a filesystem layout with server.js absent in
which launch does fail, but with the log-directory error, whose message
does not contain the probed path of the missing entry file - the log files
are created before the entry-file check (lib.rs lines 292-301). -/
theorem entry_missing_error_without_path :
    (launch envLogDirBlocked).2 = Except.error "failed to create log directory".toList ∧
    containsSeg
      (probedEntryPath (pathJoin envLogDirBlocked.resourceDir SERVER_DIST_RESOURCE))
      "failed to create log directory".toList = false := by
  exact ⟨rfl, by decide⟩

/-- Claim C4 as amended: in a release build, for every filesystem layout in
which the resource directory is available, the runtime directory exists,
log setup succeeds, and server.js is absent, supervisor launch fails and
the error message contains the probed path of the missing entry file. -/
theorem entry_missing_error_names_path (env : Env)
    (hdbg : env.debugAssertions = false)
    (hres : env.resourceDirAvailable = true)
    (hdir : env.resourceServerDirExists = true)
    (hlog : env.logDirCreateOk = true)
    (hout : env.stdoutLogCreateOk = true)
    (herr : env.stderrLogCreateOk = true)
    (hentry : env.serverEntryExists = false) :
    (launch env).2 =
      Except.error ("node server entry not found at ".toList ++
        probedEntryPath (pathJoin env.resourceDir SERVER_DIST_RESOURCE)) ∧
    containsSeg (probedEntryPath (pathJoin env.resourceDir SERVER_DIST_RESOURCE))
      ("node server entry not found at ".toList ++
        probedEntryPath (pathJoin env.resourceDir SERVER_DIST_RESOURCE)) = true := by
  have hroot : server_root env =
      Except.ok (pathJoin env.resourceDir SERVER_DIST_RESOURCE) := by
    rw [server_root, hdbg, hres, hdir]
    rfl
  constructor
  · rw [launch, hdbg, hroot, hlog, hout, herr, hentry]
    rfl
  · exact containsSeg_append_self _ _

/-- Witness for C4 (amended) at a concrete release layout. -/
theorem entry_missing_error_names_path_witness :
    (launch envEntryMissing).2 =
      Except.error ("node server entry not found at ".toList ++
        probedEntryPath (pathJoin envEntryMissing.resourceDir SERVER_DIST_RESOURCE)) ∧
    containsSeg (probedEntryPath (pathJoin envEntryMissing.resourceDir SERVER_DIST_RESOURCE))
      ("node server entry not found at ".toList ++
        probedEntryPath (pathJoin envEntryMissing.resourceDir SERVER_DIST_RESOURCE)) = true :=
  entry_missing_error_names_path envEntryMissing rfl rfl rfl rfl rfl rfl rfl

/-- A healthy release environment whose sidecar never becomes ready within
the probe deadline. -/
def envNeverReady : Env :=
  { debugAssertions := false
    manifestDir := "/repo/src/tauri-shell/src-tauri".toList
    debugServerDirExists := true
    resourceDirAvailable := true
    resourceDir := "/opt/pluto-duck/resources".toList
    resourceServerDirExists := true
    logDirCreateOk := true
    stdoutLogCreateOk := true
    stderrLogCreateOk := true
    serverEntryExists := true
    spawnOk := true
    serverReady := false
    mainWindowExists := false
    windowBuildOk := true
    navigateApiOk := true }

/-- Claim C9: when the readiness prober times out, launch logs a warning but
still returns success - the timeout is never surfaced as a launch error -
and the shell still attempts window navigation afterwards. -/
theorem readiness_timeout_nonfatal (env : Env)
    (hdbg : env.debugAssertions = false)
    (hres : env.resourceDirAvailable = true)
    (hdir : env.resourceServerDirExists = true)
    (hlog : env.logDirCreateOk = true)
    (hout : env.stdoutLogCreateOk = true)
    (herr : env.stderrLogCreateOk = true)
    (hentry : env.serverEntryExists = true)
    (hspawn : env.spawnOk = true)
    (hready : env.serverReady = false)
    (hwin : env.mainWindowExists = false)
    (hbuild : env.windowBuildOk = true)
    (hnav : env.navigateApiOk = true) :
    launch env = ([ShellEvent.spawnChild, ShellEvent.warnNotReady], Except.ok ()) ∧
    (setup env).2 = Except.ok () ∧
    ShellEvent.navigate frontend_url ∈ (setup env).1 := by
  have hroot : server_root env =
      Except.ok (pathJoin env.resourceDir SERVER_DIST_RESOURCE) := by
    rw [server_root, hdbg, hres, hdir]
    rfl
  have hlaunch : launch env =
      ([ShellEvent.spawnChild, ShellEvent.warnNotReady], Except.ok ()) := by
    rw [launch, hdbg, hroot, hlog, hout, herr, hentry, hspawn, hready]
    rfl
  have hnavw : navigate_window env = ([ShellEvent.navigate frontend_url], Except.ok ()) := by
    rw [navigate_window, hdbg, hnav]
    rfl
  refine ⟨hlaunch, ?_, ?_⟩
  · rw [setup, hwin, hbuild, hlaunch, hnavw]
    rfl
  · rw [setup, hwin, hbuild, hlaunch, hnavw]
    simp

/-- Witness for C9 at the concrete never-ready environment. -/
theorem readiness_timeout_nonfatal_witness :
    launch envNeverReady = ([ShellEvent.spawnChild, ShellEvent.warnNotReady], Except.ok ()) ∧
    (setup envNeverReady).2 = Except.ok () ∧
    ShellEvent.navigate frontend_url ∈ (setup envNeverReady).1 :=
  readiness_timeout_nonfatal envNeverReady rfl rfl rfl rfl rfl rfl rfl rfl rfl rfl rfl rfl

/- ------------------------------------------------------------------
   The readiness prober node_server::wait_for_server, lib.rs lines
   388-401.  The constant endpoint string 127.0.0.1:3100 is parsed
   once before the loop; a parse failure returns false immediately.
   The loop checks the wall clock against the deadline, makes one TCP
   connect attempt with a 400 ms connect timeout, returns true on a
   successful connect, and otherwise sleeps 200 ms and retries.  Real
   time is modelled in milliseconds: ProbeEnv gives the outcome and
   the elapsed duration of each connect attempt (the duration is
   capped by the 400 ms connect timeout), parseOk gives the outcome
   of the endpoint parse.
   ------------------------------------------------------------------ -/

structure ProbeEnv where
  parseOk : Bool
  attemptSucceeds : Nat → Bool
  attemptDuration : Nat → Nat

/-- Start time of the i-th connect attempt: each earlier failed attempt
consumed its connect duration (at most 400 ms) plus the 200 ms sleep. -/
def attemptTime (env : ProbeEnv) (start : Nat) : Nat → Nat
  | 0 => start
  | i + 1 => attemptTime env start i + min (env.attemptDuration i) 400 + 200

def waitLoop (env : ProbeEnv) (deadline : Nat) (i : Nat) (now : Nat) : Bool :=
  if now < deadline then
    if env.attemptSucceeds i then true
    else waitLoop env deadline (i + 1) (now + min (env.attemptDuration i) 400 + 200)
  else false
termination_by deadline - now
decreasing_by omega

def wait_for_server (env : ProbeEnv) (timeout : Nat) (start : Nat) : Bool :=
  if env.parseOk then waitLoop env (start + timeout) 0 start else false

theorem attemptTime_le (env : ProbeEnv) (start : Nat) :
    ∀ i j, i ≤ j → attemptTime env start i ≤ attemptTime env start j := by
  intro i j hij
  induction j with
  | zero => rw [Nat.le_zero.mp hij]
  | succ j ih =>
    rcases Nat.lt_or_ge i (j + 1) with hlt | hge
    · have h := ih (Nat.lt_succ_iff.mp hlt)
      rw [attemptTime]
      omega
    · rw [Nat.le_antisymm hij hge]

theorem waitLoop_true_iff (env : ProbeEnv) (deadline start : Nat) :
    ∀ n i, deadline - attemptTime env start i ≤ n →
      (waitLoop env deadline i (attemptTime env start i) = true ↔
        ∃ j, i ≤ j ∧ attemptTime env start j < deadline ∧ env.attemptSucceeds j = true) := by
  intro n
  induction n with
  | zero =>
    intro i hn
    rw [waitLoop]
    have hge : ¬ attemptTime env start i < deadline := by omega
    rw [if_neg hge]
    constructor
    · intro h
      exact absurd h Bool.false_ne_true
    · rintro ⟨j, hij, hjd, -⟩
      exact absurd (Nat.lt_of_le_of_lt (attemptTime_le env start i j hij) hjd) hge
  | succ n ih =>
    intro i hn
    rw [waitLoop]
    by_cases hd : attemptTime env start i < deadline
    · rw [if_pos hd]
      by_cases hs : env.attemptSucceeds i = true
      · rw [hs]
        exact ⟨fun _ => ⟨i, Nat.le_refl i, hd, hs⟩, fun _ => rfl⟩
      · rw [Bool.not_eq_true] at hs
        rw [hs]
        have hnext : attemptTime env start i + min (env.attemptDuration i) 400 + 200 =
            attemptTime env start (i + 1) := by
          rw [attemptTime]
        rw [hnext, if_neg Bool.false_ne_true]
        have hrec := ih (i + 1) (by rw [← hnext]; omega)
        rw [hrec]
        constructor
        · rintro ⟨j, hij, hjd, hjs⟩
          exact ⟨j, Nat.le_of_succ_le hij, hjd, hjs⟩
        · rintro ⟨j, hij, hjd, hjs⟩
          refine ⟨j, ?_, hjd, hjs⟩
          rcases Nat.lt_or_ge i j with hlt | hge
          · exact hlt
          · have hij2 : i = j := Nat.le_antisymm hij hge
            rw [← hij2, hs] at hjs
            exact absurd hjs Bool.false_ne_true
    · rw [if_neg hd]
      constructor
      · intro h
        exact absurd h Bool.false_ne_true
      · rintro ⟨j, hij, hjd, -⟩
        exact absurd (Nat.lt_of_le_of_lt (attemptTime_le env start i j hij) hjd) hd

/-- Claim C7: wait_for_server returns false immediately when the endpoint parse
fails; otherwise it returns true exactly when some connect attempt starts
before the wall-clock deadline and succeeds, and returns false when the
deadline elapses with no successful connection; successive attempt start
times differ by the connect duration, capped by the 400 ms connect
timeout, plus the 200 ms sleep, hence by at least 200 and at most
600 ms. -/
theorem wait_for_server_contract (env : ProbeEnv) (timeout start : Nat) :
    (env.parseOk = false → wait_for_server env timeout start = false) ∧
    (env.parseOk = true →
      (wait_for_server env timeout start = true ↔
        ∃ j, attemptTime env start j < start + timeout ∧ env.attemptSucceeds j = true)) ∧
    (∀ i, attemptTime env start (i + 1) =
        attemptTime env start i + (min (env.attemptDuration i) 400 + 200) ∧
      attemptTime env start i + 200 ≤ attemptTime env start (i + 1) ∧
      attemptTime env start (i + 1) ≤ attemptTime env start i + 600) := by
  refine ⟨?_, ?_, ?_⟩
  · intro h
    rw [wait_for_server, h]
    rfl
  · intro h
    rw [wait_for_server, h, if_pos rfl]
    have h0 : attemptTime env start 0 = start := rfl
    have hiff := waitLoop_true_iff env (start + timeout) start
      (start + timeout - attemptTime env start 0) 0 (Nat.le_refl _)
    rw [h0] at hiff
    rw [hiff]
    constructor
    · rintro ⟨j, -, hjd, hjs⟩
      exact ⟨j, hjd, hjs⟩
    · rintro ⟨j, hjd, hjs⟩
      exact ⟨j, Nat.zero_le j, hjd, hjs⟩
  · intro i
    refine ⟨by rw [attemptTime]; omega, ?_, ?_⟩ <;> rw [attemptTime] <;> omega

/-- Witness for C7: with a parsing endpoint, attempts taking 100 ms that
succeed from the third attempt on, and a 2000 ms budget, the prober
reports readiness. -/
theorem wait_for_server_contract_witness :
    wait_for_server
      (ProbeEnv.mk true (fun i => decide (2 ≤ i)) (fun _ => 100)) 2000 0 = true := by
  have h := (wait_for_server_contract
    (ProbeEnv.mk true (fun i => decide (2 ≤ i)) (fun _ => 100)) 2000 0).2.1 rfl
  exact h.mpr ⟨2, by decide, by decide⟩
